import Mathlib

/-!
Shallow embedding of `src/use-media-recorder.ts` (the `useMediaRecorder` React
hook).  The hook's mutable React refs and state cells are gathered into one
`HookState` record; every handler/operation of the hook becomes a pure Lean
function from the caller-supplied configuration and the old state to the new
state, paired with the ordered trace of observable actions it performed
(status updates and invocations of the caller's callbacks).  Outcomes of the
browser APIs the hook awaits or calls (`getUserMedia`, `getDisplayMedia`,
`MediaRecorder` construction and `start`) are supplied as explicit oracle
records, so the functions stay pure and executable.
-/

namespace UMR

/-- `MediaRecorderStatus` from `src/use-media-recorder.ts` (the string union
of the eight status values). -/
inductive MediaRecorderStatus
  | idle
  | acquiring_media
  | ready
  | recording
  | paused
  | stopping
  | stopped
  | failed
  deriving DecidableEq, Repr

/-- A DOM `Blob`: a byte sequence plus a MIME type string.  (`Blob.size` in
the DOM is the byte length; MIME normalization by the `Blob` constructor is
not modelled.) -/
structure Blob where
  data : List Nat
  type : String
  deriving DecidableEq, Repr

/-- `blob.size` — the byte length of the blob. -/
def Blob.size (b : Blob) : Nat := b.data.length

/-- `BlobPropertyBag`: only its `type` member is relevant to the hook.
`none` models an absent `type` key. -/
structure BlobPropertyBag where
  type : Option String := none
  deriving DecidableEq, Repr

/-- The JS object spread `{ type: base.type, ...blobOptions }` used in
`handleStop`: when `blobOptions` is present and carries a `type` key it
overrides the base, otherwise the base survives. -/
def spreadBag (base : BlobPropertyBag) (blobOptions : Option BlobPropertyBag) :
    BlobPropertyBag :=
  match blobOptions with
  | none => base
  | some o => { type := match o.type with | some t => some t | none => base.type }

/-- `new Blob(parts, bag)`: the bytes of the parts concatenated in order;
the type is the bag's `type` key, defaulting to the empty string. -/
def Blob.fromParts (parts : List Blob) (bag : BlobPropertyBag) : Blob :=
  { data := (parts.map Blob.data).flatten, type := bag.type.getD "" }

/-- `hasLengthAtLeast(arr, len)` from `src/use-media-recorder.ts`. -/
def hasLengthAtLeast (arr : List α) (len : Nat) : Bool := len ≤ arr.length

/-- A `MediaStreamTrack`: its kind, its `enabled` flag (toggled by
`muteAudio`) and whether `track.stop()` has been called on it. -/
structure MediaStreamTrack where
  isAudio : Bool
  enabled : Bool := true
  stopped : Bool := false
  deriving DecidableEq, Repr

/-- A `MediaStream` is modelled by its list of tracks. -/
abbrev Stream := List MediaStreamTrack

/-- `track.stop()` applied to every track of a stream
(`mediaStream.current.getTracks().forEach((track) => track.stop())`). -/
def stopAllTracks (ts : Stream) : Stream :=
  ts.map fun t => { t with stopped := true }

/-- The native `MediaRecorder.state` attribute. -/
inductive RecState
  | inactive
  | recording
  | paused
  deriving DecidableEq, Repr

/-- The native `MediaRecorder` object: its recording state and which of the
hook's three listeners are currently attached to it. -/
structure NativeRecorder where
  state : RecState
  hasDataAvailableListener : Bool
  hasStopListener : Bool
  hasErrorListener : Bool
  deriving DecidableEq, Repr

/-- The three `removeEventListener` calls in `stopRecording`. -/
def removeAllListeners (r : NativeRecorder) : NativeRecorder :=
  { r with hasDataAvailableListener := false, hasStopListener := false,
           hasErrorListener := false }

/-- An opaque JS error value (the `unknown` caught by the hook, or the DOM
event passed to `handleError`). -/
structure ErrValue where
  id : Nat
  deriving DecidableEq, Repr

/-- An observable action of the hook, in the order performed: a `setStatus`
call, or an invocation of one of the caller's optional callbacks. -/
inductive Event
  | setStatus (s : MediaRecorderStatus)
  | cbStart
  | cbStop (mediaBlob : Option Blob) (mimeType : String)
  | cbDataAvailable (b : Blob)
  | cbError (e : ErrValue)
  deriving DecidableEq, Repr

/-- Truthiness of a `video:`/`audio:` member of `MediaStreamConstraints`:
absent, a boolean, or a `MediaTrackConstraints` object (modelled by the list
of its keys in `Object.keys` order). -/
inductive ConstraintSpec
  | absent
  | bool (b : Bool)
  | obj (keys : List String)
  deriving DecidableEq, Repr

/-- JS truthiness of a constraint member (an object, even empty, is truthy). -/
def ConstraintSpec.truthy : ConstraintSpec → Bool
  | .absent => false
  | .bool b => b
  | .obj _ => true

/-- `isObject` from `src/use-media-recorder.ts`, restricted to the values a
constraint member can take. -/
def isObject : ConstraintSpec → Bool
  | .obj _ => true
  | _ => false

/-- `MediaStreamConstraints`: the `video` and `audio` members. -/
structure MediaStreamConstraints where
  video : ConstraintSpec := .absent
  audio : ConstraintSpec := .absent
  deriving DecidableEq, Repr

/-- `MediaRecorderOptions`: only `mimeType` is read by the hook. -/
structure MediaRecorderOptions where
  mimeType : Option String := none
  deriving DecidableEq, Repr

/-- The caller-supplied `UseMediaRecorderArgs`.  The optional callbacks are
modelled by presence flags (`onStop?.()` fires only when the callback was
provided). -/
structure Config where
  mediaStreamConstraints : MediaStreamConstraints := {}
  blobOptions : Option BlobPropertyBag := none
  recordScreen : Bool := false
  customMediaStream : Option Stream := none
  mediaRecorderOptions : Option MediaRecorderOptions := none
  hasOnStart : Bool := false
  hasOnStop : Bool := false
  hasOnDataAvailable : Bool := false
  hasOnError : Bool := false
  deriving DecidableEq, Repr

/-- The hook's refs and state cells.  `releasedTracks` and
`detachedRecorder` are model bookkeeping for external JS objects the hook
has dropped its reference to: the tracks of the last stream released by
`releaseMediaStream` (after their `stop()` calls), and the recorder object
most recently detached by `stopRecording` (after its listeners were
removed); in the source these objects survive on the JS heap after the refs
are nulled. -/
structure HookState where
  mediaChunks : List Blob := []
  mediaStream : Option Stream := none
  mediaRecorder : Option NativeRecorder := none
  browserSupportError : Option String := none
  error : Option ErrValue := none
  status : MediaRecorderStatus := .idle
  activeMediaRecorder : Option NativeRecorder := none
  mediaBlob : Option Blob := none
  isAudioMuted : Bool := false
  releasedTracks : Stream := []
  detachedRecorder : Option NativeRecorder := none
  deriving DecidableEq, Repr

/-- The state of the hook right after the first render. -/
def initialState : HookState := {}

/-- `releaseMediaStream`: when a stream is held, stop every track, clear the
handle and set status `idle`; otherwise do nothing. -/
def releaseMediaStream (st : HookState) : HookState × List Event :=
  match st.mediaStream with
  | none => (st, [])
  | some tracks =>
    ({ st with mediaStream := none, status := .idle,
               releasedTracks := stopAllTracks tracks },
     [.setStatus .idle])

/-- `handleDataAvailable(e)`: push the chunk when its size is truthy
(non-zero), then always invoke `onDataAvailable?.(e.data)`. -/
def handleDataAvailable (cfg : Config) (st : HookState) (data : Blob) :
    HookState × List Event :=
  let st :=
    if data.size ≠ 0 then { st with mediaChunks := st.mediaChunks ++ [data] }
    else st
  (st, if cfg.hasOnDataAvailable then [.cbDataAvailable data] else [])

/-- `handleStop()`: when at least one chunk was collected
(`hasLengthAtLeast(chunks, 1)`, i.e. the list is nonempty), build the blob
from all chunks with `{ type: sampleChunk.type, ...blobOptions }` and report
the first chunk's type as `mimeType`; otherwise the blob is `null` and the
type the empty string.  Then set status `stopped`, store the blob, and
invoke `onStop?.`. -/
def handleStop (cfg : Config) (st : HookState) : HookState × List Event :=
  let pair : Option Blob × String :=
    match st.mediaChunks with
    | sampleChunk :: rest =>
      let blobPropertyBag := spreadBag { type := some sampleChunk.type } cfg.blobOptions
      (some (Blob.fromParts (sampleChunk :: rest) blobPropertyBag), sampleChunk.type)
    | [] => (none, "")
  ({ st with status := .stopped, mediaBlob := pair.1 },
   [.setStatus .stopped] ++
     (if cfg.hasOnStop then [.cbStop pair.1 pair.2] else []))

/-- `handleError(e)`: store the event in the error slot, set status `idle`,
invoke `onError?.`. -/
def handleError (cfg : Config) (st : HookState) (e : ErrValue) :
    HookState × List Event :=
  ({ st with error := some e, status := .idle },
   [.setStatus .idle] ++ (if cfg.hasOnError then [.cbError e] else []))

/-- `handleTryCatchStart(error)`: same behavior as `handleError`, for the
exception caught around `rec.start`. -/
def handleTryCatchStart (cfg : Config) (st : HookState) (e : ErrValue) :
    HookState × List Event :=
  ({ st with error := some e, status := .idle },
   [.setStatus .idle] ++ (if cfg.hasOnError then [.cbError e] else []))

/-- `pauseRecording()`: only acts when a recorder is held and its native
state is `recording`. -/
def pauseRecording (st : HookState) : HookState × List Event :=
  match st.mediaRecorder with
  | some rec =>
    if rec.state = .recording then
      ({ st with mediaRecorder := some { rec with state := .paused },
                 status := .paused },
       [.setStatus .paused])
    else (st, [])
  | none => (st, [])

/-- `resumeRecording()`: only acts when a recorder is held and its native
state is `paused`. -/
def resumeRecording (st : HookState) : HookState × List Event :=
  match st.mediaRecorder with
  | some rec =>
    if rec.state = .paused then
      ({ st with mediaRecorder := some { rec with state := .recording },
                 status := .recording },
       [.setStatus .recording])
    else (st, [])
  | none => (st, [])

/-- `stopRecording()`: when a recorder is held, set status `stopping`, call
`rec.stop()` (native state becomes inactive), remove the three listeners,
null the recorder ref, and — unless a `customMediaStream` was supplied —
release the media stream.  With no recorder held it does nothing. -/
def stopRecording (cfg : Config) (st : HookState) : HookState × List Event :=
  match st.mediaRecorder with
  | none => (st, [])
  | some rec =>
    let st1 : HookState := { st with status := .stopping }
    let rec1 : NativeRecorder := { rec with state := .inactive }
    let rec2 := removeAllListeners rec1
    let st2 : HookState :=
      { st1 with mediaRecorder := none, detachedRecorder := some rec2 }
    if cfg.customMediaStream.isSome then
      (st2, [.setStatus .stopping])
    else
      let r := releaseMediaStream st2
      (r.1, [.setStatus .stopping] ++ r.2)

/-- Outcomes of the browser's asynchronous acquisition calls: the result of
`getUserMedia(mediaStreamConstraints)`, of `getDisplayMedia(...)`, and of
the audio-only `getUserMedia({ audio: ... })` issued on the screen path.
`Except.error` models the awaited promise rejecting. -/
structure AcquireEnv where
  getUserMedia : Except ErrValue Stream := .ok []
  getDisplayMedia : Except ErrValue Stream := .ok []
  getUserMediaAudio : Except ErrValue Stream := .ok []
  deriving Repr

/-- `audioStream.getAudioTracks()`. -/
def getAudioTracks (s : Stream) : Stream := s.filter (·.isAudio)

/-- The `if (error) { setError(null); }` step that opens both
`acquireMediaStream` and `startRecording`. -/
def clearError (st : HookState) : HookState :=
  if st.error.isSome then { st with error := none } else st

/-- The inner awaited IIFE of `acquireMediaStream`: the screen path awaits
`getDisplayMedia` and, when the audio constraint is truthy, merges the audio
tracks of a second `getUserMedia({ audio: ... })` into the display stream;
the camera/mic path awaits `getUserMedia(mediaStreamConstraints)`. -/
def awaitStream (cfg : Config) (env : AcquireEnv) : Except ErrValue Stream :=
  if cfg.recordScreen then
    match env.getDisplayMedia with
    | .error e => .error e
    | .ok screen =>
      if cfg.mediaStreamConstraints.audio.truthy then
        match env.getUserMediaAudio with
        | .error e => .error e
        | .ok audioStream => .ok (screen ++ getAudioTracks audioStream)
      else .ok screen
  else env.getUserMedia

/-- `acquireMediaStream()`: clear a prior error, set status
`acquiring_media`; a supplied `customMediaStream` is adopted directly with
status `ready`; otherwise the screen or camera/mic stream is awaited (on the
screen path, when the audio constraint is truthy, audio tracks from a
second `getUserMedia` are added to the display stream).  Success stores the
stream and sets `ready`; a rejection is caught, stored in the error slot,
and sets `failed`, returning `null`. -/
def acquireMediaStream (cfg : Config) (env : AcquireEnv) (st : HookState) :
    HookState × List Event × Option Stream :=
  let st := clearError st
  let st := { st with status := .acquiring_media }
  let ev := [Event.setStatus .acquiring_media]
  match cfg.customMediaStream with
  | some s =>
    ({ st with mediaStream := some s, status := .ready },
     ev ++ [.setStatus .ready], some s)
  | none =>
    match awaitStream cfg env with
    | .ok stream =>
      ({ st with mediaStream := some stream, status := .ready },
       ev ++ [.setStatus .ready], some stream)
    | .error err =>
      ({ st with error := some err, status := .failed },
       ev ++ [.setStatus .failed], none)

/-- Oracle for `startRecording`'s interaction with the native recorder: does
`new MediaRecorder(stream, options)` throw, and does `rec.start(timeSlice)`
throw. -/
structure StartEnv where
  acquire : AcquireEnv := {}
  ctorThrows : Option ErrValue := none
  startThrows : Option ErrValue := none
  deriving Repr

/-- `startRecording(timeSlice)`: clear a prior error; use the held stream or
acquire one; reset `mediaChunks` to `[]`; then, when a stream is available,
construct the recorder (an uncaught constructor throw rejects the returned
promise — the third component), attach the three listeners, and call
`rec.start` inside try/catch: success sets status `recording` and fires
`onStart?.`; a caught throw goes to `handleTryCatchStart`. -/
def startRecording (cfg : Config) (env : StartEnv) (st : HookState)
    (_timeSlice : Option Nat) : HookState × List Event × Option ErrValue :=
  let st := clearError st
  let acq : HookState × List Event × Option Stream :=
    match st.mediaStream with
    | some s => (st, [], some s)
    | none => acquireMediaStream cfg env.acquire st
  let st := { acq.1 with mediaChunks := [] }
  let ev := acq.2.1
  match acq.2.2 with
  | none => (st, ev, none)
  | some _stream =>
    match env.ctorThrows with
    | some e => (st, ev, some e)  -- thrown before `mediaRecorder.current` is assigned
    | none =>
      let rec0 : NativeRecorder :=
        { state := .inactive, hasDataAvailableListener := true,
          hasStopListener := true, hasErrorListener := true }
      let st := { st with mediaRecorder := some rec0,
                          activeMediaRecorder := some rec0 }
      match env.startThrows with
      | some e =>
        let r := handleTryCatchStart cfg st e
        (r.1, ev ++ r.2, none)
      | none =>
        let rec1 : NativeRecorder := { rec0 with state := .recording }
        ({ st with mediaRecorder := some rec1,
                   activeMediaRecorder := some rec1, status := .recording },
         ev ++ [.setStatus .recording] ++ (if cfg.hasOnStart then [.cbStart] else []),
         none)

/-- What the browser-capability `useEffect` can observe: which APIs exist,
the set of constraint names `getSupportedConstraints()` maps to a truthy
value, and `MediaRecorder.isTypeSupported`. -/
structure SupportEnv where
  hasMediaRecorder : Bool := true
  hasGetDisplayMedia : Bool := true
  hasMediaDevices : Bool := true
  hasGetSupportedConstraints : Bool := true
  supportedConstraints : List String := []
  isTypeSupported : String → Bool := fun _ => true

/-- `ensureConstraintsSupported(supported, requestedConstraints)`: the keys
of the requested constraints whose entry in the supported-constraints
object is falsy, joined into an error message when any exist. -/
def ensureConstraintsSupported (supported : List String)
    (requestedKeys : List String) : Option String :=
  let unsupported := requestedKeys.filter fun k => !(supported.contains k)
  if unsupported.length ≠ 0 then
    some ("The following media constraints [" ++
      String.intercalate "," unsupported ++
      "] are not supported on this browser.")
  else none

/-- One `isObject(...) → ensureConstraintsSupported(...)` step of the
effect: only a constraint-object member is checked. -/
def constraintErr (env : SupportEnv) : ConstraintSpec → Option String
  | .obj keys => ensureConstraintsSupported env.supportedConstraints keys
  | _ => none

/-- The `mediaRecorderOptions?.mimeType` truthiness check followed by
`MediaRecorder.isTypeSupported`. -/
def mimeErr (env : SupportEnv) : Option MediaRecorderOptions → Option String
  | none => none
  | some opts =>
    match opts.mimeType with
    | none => none
    | some m =>
      if m ≠ "" ∧ ¬ env.isTypeSupported m then
        some ("The specified MIME type [" ++ m ++
          "] supplied to MediaRecorder is not supported by this browser.")
      else none

/-- The body of the capability-check `useEffect`: the browser-support error
it records, if any (checks in source order; `none` means the effect fell
through without recording an error).  It consults only `SupportEnv` — no
acquisition oracle is in scope, mirroring that the effect never touches
`getUserMedia`/`getDisplayMedia`.  (One corner is smoothed: with
`recordScreen` set the source dereferences `mediaDevices.getDisplayMedia`
before the `mediaDevices` nullity check and would throw on a browser with
no `mediaDevices` at all; the model treats that as a missing
`getDisplayMedia`.) -/
def supportCheck (cfg : Config) (env : SupportEnv) : Option String :=
  if ¬ env.hasMediaRecorder then
    some ("MediaRecorder is not supported in this browser. Please ensure " ++
      "that you are running the latest version of chrome/firefox/edge.")
  else if cfg.recordScreen ∧ ¬ env.hasGetDisplayMedia then
    some "This browser does not support screen capturing."
  else if ¬ env.hasMediaDevices then
    some "The MediaDevices interface is not available on this browser."
  else if ¬ env.hasGetSupportedConstraints then
    some ("The MediaDevices.getSupportedConstraints() method is not " ++
      "available on this browser.")
  else
    match constraintErr env cfg.mediaStreamConstraints.video with
    | some e => some e
    | none =>
      match constraintErr env cfg.mediaStreamConstraints.audio with
      | some e => some e
      | none => mimeErr env cfg.mediaRecorderOptions

/-- The capability-check effect as a state update (it runs on mount, before
any user-triggered operation): the only cell it can write is
`browserSupportError`. -/
def applySupportEffect (cfg : Config) (env : SupportEnv) (st : HookState) :
    HookState :=
  match supportCheck cfg env with
  | some e => { st with browserSupportError := some e }
  | none => st

/-! ## General lemmas about the operations -/

/-- With no recorder held, `stopRecording` returns the state unchanged and
performs no action. -/
theorem stopRecording_noop_of_none (cfg : Config) (st : HookState)
    (h : st.mediaRecorder = none) : stopRecording cfg st = (st, []) := by
  unfold stopRecording
  split <;> simp_all

/-- With no recorder held, `pauseRecording` returns the state unchanged and
performs no action. -/
theorem pauseRecording_noop_of_none (st : HookState)
    (h : st.mediaRecorder = none) : pauseRecording st = (st, []) := by
  unfold pauseRecording
  split <;> simp_all

/-- With no recorder held, `resumeRecording` returns the state unchanged and
performs no action. -/
theorem resumeRecording_noop_of_none (st : HookState)
    (h : st.mediaRecorder = none) : resumeRecording st = (st, []) := by
  unfold resumeRecording
  split <;> simp_all

/-- After `stopRecording` the recorder ref is always null. -/
theorem stopRecording_fst_mediaRecorder (cfg : Config) (st : HookState)
    (h : st.mediaRecorder = some rec) :
    (stopRecording cfg st).1.mediaRecorder = none := by
  unfold stopRecording
  split
  · simp_all
  · dsimp only
    split
    · rfl
    · unfold releaseMediaStream
      dsimp only
      split <;> rfl

/-- `stopRecording` does not touch the collected chunks. -/
theorem stopRecording_fst_mediaChunks (cfg : Config) (st : HookState) :
    (stopRecording cfg st).1.mediaChunks = st.mediaChunks := by
  unfold stopRecording
  split
  · rfl
  · dsimp only
    split
    · rfl
    · unfold releaseMediaStream
      dsimp only
      split <;> rfl

/-! ## The claims -/

/-- C6: calling `stopRecording` before any recording has started (no
recorder handle held) is a no-op: the entire hook state — status, error
slot, `mediaBlob`, collected chunks, stream handle — is unchanged and no
callback or status update is performed. -/
theorem stopRecording_before_start_noop_spec (cfg : Config) (st : HookState)
    (h : st.mediaRecorder = none) : stopRecording cfg st = (st, []) :=
  stopRecording_noop_of_none cfg st h

/-- C6 witness: `stopRecording` on the initial state (no recorder ever
created) changes nothing. -/
theorem stopRecording_before_start_noop_spec_witness :
    initialState.mediaRecorder = none ∧
      stopRecording {} initialState = (initialState, []) :=
  ⟨rfl, stopRecording_before_start_noop_spec {} initialState rfl⟩

/-- C3: when the collected-chunk sequence is empty at stop-notification
time, no artifact is produced: `mediaBlob` is set to null and `onStop`
receives a null blob together with the empty MIME type. -/
theorem handleStop_empty_spec (cfg : Config) (st : HookState)
    (h : st.mediaChunks = []) (hcb : cfg.hasOnStop = true) :
    (handleStop cfg st).1.mediaBlob = none ∧
    (handleStop cfg st).1.status = .stopped ∧
    (handleStop cfg st).2 = [.setStatus .stopped, .cbStop none ""] := by
  simp [handleStop, h, hcb]

/-- C3 witness: stopping with no collected chunks on a concrete state. -/
theorem handleStop_empty_spec_witness :
    (handleStop { hasOnStop := true } initialState).1.mediaBlob = none ∧
    (handleStop { hasOnStop := true } initialState).1.status = .stopped ∧
    (handleStop { hasOnStop := true } initialState).2 =
      [.setStatus .stopped, .cbStop none ""] :=
  handleStop_empty_spec { hasOnStop := true } initialState rfl rfl

/-- C10: a zero-size chunk is never appended (the state is untouched), a
non-zero chunk is appended at the end, and in both cases the
`onDataAvailable` callback — when supplied — is invoked with the chunk. -/
theorem handleDataAvailable_spec (cfg : Config) (st : HookState) (b : Blob) :
    (b.size = 0 → (handleDataAvailable cfg st b).1 = st) ∧
    (b.size ≠ 0 →
      (handleDataAvailable cfg st b).1.mediaChunks = st.mediaChunks ++ [b]) ∧
    (cfg.hasOnDataAvailable = true →
      (handleDataAvailable cfg st b).2 = [.cbDataAvailable b]) := by
  refine ⟨fun h => ?_, fun h => ?_, fun h => ?_⟩ <;>
    simp [handleDataAvailable, h]

/-- C10 witness: a zero-size chunk is not appended yet still reported. -/
theorem handleDataAvailable_spec_witness :
    (handleDataAvailable { hasOnDataAvailable := true } initialState
        { data := [], type := "video/webm" }).1 = initialState ∧
    (handleDataAvailable { hasOnDataAvailable := true } initialState
        { data := [], type := "video/webm" }).2 =
      [.cbDataAvailable { data := [], type := "video/webm" }] :=
  ⟨(handleDataAvailable_spec { hasOnDataAvailable := true } initialState
      { data := [], type := "video/webm" }).1 rfl,
   (handleDataAvailable_spec { hasOnDataAvailable := true } initialState
      { data := [], type := "video/webm" }).2.2 rfl⟩

/-- Sample chunks and states used to witness concrete runs. -/
def chunkA : Blob := { data := [104, 101], type := "audio/webm" }

/-- A second sample chunk with the same MIME type. -/
def chunkB : Blob := { data := [108, 108, 111], type := "audio/webm" }

/-- A state that has collected two chunks. -/
def stWithChunks : HookState := { mediaChunks := [chunkA, chunkB] }

/-- C2: handling the stop notification with a non-empty chunk sequence
produces exactly one artifact — the concatenation of all collected chunks
in collection order, typed by the first chunk's MIME type unless
`blobOptions` overrides it — which is stored in `mediaBlob` and handed to
the `onStop` callback. -/
theorem handleStop_nonempty_spec (cfg : Config) (st : HookState)
    (c : Blob) (cs : List Blob) (h : st.mediaChunks = c :: cs)
    (hcb : cfg.hasOnStop = true) :
    (handleStop cfg st).1.mediaBlob =
      some (Blob.fromParts (c :: cs) (spreadBag { type := some c.type } cfg.blobOptions)) ∧
    (Blob.fromParts (c :: cs) (spreadBag { type := some c.type } cfg.blobOptions)).data =
      ((c :: cs).map Blob.data).flatten ∧
    (Blob.fromParts (c :: cs) (spreadBag { type := some c.type } cfg.blobOptions)).type =
      (match cfg.blobOptions with
       | some o => o.type.getD c.type
       | none => c.type) ∧
    (handleStop cfg st).2 =
      [.setStatus .stopped,
       .cbStop (some (Blob.fromParts (c :: cs)
         (spreadBag { type := some c.type } cfg.blobOptions))) c.type] := by
  refine ⟨?_, rfl, ?_, ?_⟩
  · simp [handleStop, h]
  · cases hbo : cfg.blobOptions with
    | none => simp [Blob.fromParts, spreadBag]
    | some o =>
      cases hot : o.type <;> simp [Blob.fromParts, spreadBag, hot]
  · simp [handleStop, h, hcb]

/-- C2 witness: two chunks of matching type concatenate into one artifact
bearing that type, stored and reported. -/
theorem handleStop_nonempty_spec_witness :
    (handleStop { hasOnStop := true } stWithChunks).1.mediaBlob =
      some (Blob.fromParts [chunkA, chunkB] (spreadBag { type := some chunkA.type } none)) ∧
    (Blob.fromParts [chunkA, chunkB] (spreadBag { type := some chunkA.type } none)).data =
      ([chunkA, chunkB].map Blob.data).flatten ∧
    (Blob.fromParts [chunkA, chunkB] (spreadBag { type := some chunkA.type } none)).type =
      chunkA.type ∧
    (handleStop { hasOnStop := true } stWithChunks).2 =
      [.setStatus .stopped,
       .cbStop (some (Blob.fromParts [chunkA, chunkB]
         (spreadBag { type := some chunkA.type } none))) chunkA.type] :=
  handleStop_nonempty_spec { hasOnStop := true } stWithChunks chunkA [chunkB]
    rfl rfl

/-- Modelled from the browser's event-dispatch semantics (not from src/):
`MediaRecorder.stop()` queues a task that later fires the `stop` event on
the recorder object, and dispatch consults the object's listener list at
dispatch time — so the hook's `handleStop` runs only when its listener is
still attached to the recorder when the queued event fires. -/
def dispatchStop (cfg : Config) (st : HookState) (r : NativeRecorder) :
    HookState × List Event :=
  if r.hasStopListener then handleStop cfg st else (st, [])

/-- A live recorder object with all three listeners attached. -/
def recLive : NativeRecorder :=
  { state := .recording, hasDataAvailableListener := true,
    hasStopListener := true, hasErrorListener := true }

/-- A mid-recording state: two chunks collected, recorder and stream held. -/
def stRecording : HookState :=
  { stWithChunks with mediaRecorder := some recLive,
                      mediaStream := some [{ isAudio := true }],
                      status := .recording }

/-- C1: at a concrete stop call on a recording state with two collected
chunks, `stopRecording` does flip to "stopping" first, but it removes the
stop listener from the recorder object in the same synchronous call — the
detached recorder it leaves behind has `hasStopListener = false` — so when
the queued stop notification is later dispatched on that object nothing
runs: `handleStop` is never invoked, no artifact is assembled (`mediaBlob`
stays null), no `onStop` fires, and the status ends at "idle" (written by
the stream release), never reaching "stopped".  The code thus never
reaches the assemble-and-flip-to-"stopped" phase the spec describes for
the stop flow. -/
theorem stop_notification_never_handled_cex :
    (stopRecording {} stRecording).2.head? = some (.setStatus .stopping) ∧
    (stopRecording {} stRecording).1.detachedRecorder =
      some (removeAllListeners { recLive with state := .inactive }) ∧
    (removeAllListeners { recLive with state := .inactive }).hasStopListener = false ∧
    dispatchStop {} (stopRecording {} stRecording).1
        (removeAllListeners { recLive with state := .inactive }) =
      ((stopRecording {} stRecording).1, []) ∧
    (stopRecording {} stRecording).1.status = .idle ∧
    (stopRecording {} stRecording).1.mediaBlob = none := by
  refine ⟨rfl, rfl, rfl, ?_, rfl, rfl⟩
  unfold dispatchStop
  rfl

/-- `stopRecording` records the detached recorder object: stopped and with
all three listeners removed. -/
theorem stopRecording_fst_detached (cfg : Config) (st : HookState)
    (rec : NativeRecorder) (h : st.mediaRecorder = some rec) :
    (stopRecording cfg st).1.detachedRecorder =
      some (removeAllListeners { rec with state := .inactive }) := by
  unfold stopRecording
  rw [h]
  dsimp only
  split
  · rfl
  · unfold releaseMediaStream
    dsimp only
    split <;> rfl

/-- C8: after a `stopRecording` that found a recorder handle, the handle is
null and the detached recorder object has its dataavailable/stop/error
listeners removed; consequently `pauseRecording`, `resumeRecording` and
`stopRecording` are all no-ops on the resulting state. -/
theorem stopRecording_detach_spec (cfg : Config) (st : HookState)
    (rec : NativeRecorder) (h : st.mediaRecorder = some rec) :
    (stopRecording cfg st).1.mediaRecorder = none ∧
    (stopRecording cfg st).1.detachedRecorder =
      some (removeAllListeners { rec with state := .inactive }) ∧
    (removeAllListeners { rec with state := .inactive }).hasDataAvailableListener = false ∧
    (removeAllListeners { rec with state := .inactive }).hasStopListener = false ∧
    (removeAllListeners { rec with state := .inactive }).hasErrorListener = false ∧
    pauseRecording (stopRecording cfg st).1 = ((stopRecording cfg st).1, []) ∧
    resumeRecording (stopRecording cfg st).1 = ((stopRecording cfg st).1, []) ∧
    stopRecording cfg (stopRecording cfg st).1 = ((stopRecording cfg st).1, []) := by
  have hmr := stopRecording_fst_mediaRecorder cfg st h
  exact ⟨hmr, stopRecording_fst_detached cfg st rec h, rfl, rfl, rfl,
    pauseRecording_noop_of_none _ hmr, resumeRecording_noop_of_none _ hmr,
    stopRecording_noop_of_none _ _ hmr⟩

/-- C8 witness: stopping the concrete recording state detaches the recorder
and makes every later control call a no-op. -/
theorem stopRecording_detach_spec_witness :
    (stopRecording {} stRecording).1.mediaRecorder = none ∧
    (stopRecording {} stRecording).1.detachedRecorder =
      some (removeAllListeners { recLive with state := .inactive }) ∧
    (removeAllListeners { recLive with state := .inactive }).hasDataAvailableListener = false ∧
    (removeAllListeners { recLive with state := .inactive }).hasStopListener = false ∧
    (removeAllListeners { recLive with state := .inactive }).hasErrorListener = false ∧
    pauseRecording (stopRecording {} stRecording).1 =
      ((stopRecording {} stRecording).1, []) ∧
    resumeRecording (stopRecording {} stRecording).1 =
      ((stopRecording {} stRecording).1, []) ∧
    stopRecording {} (stopRecording {} stRecording).1 =
      ((stopRecording {} stRecording).1, []) :=
  stopRecording_detach_spec {} stRecording recLive rfl

/-- A configuration supplying a caller-owned custom stream. -/
def cfgCustom : Config := { customMediaStream := some [{ isAudio := false }] }

/-- C7: with a caller-supplied custom stream, `stopRecording` leaves the
stream handle untouched and releases nothing; with an adapter-acquired
stream it stops every track, clears the handle, and returns the status to
`idle`. -/
theorem stopRecording_stream_ownership_spec (cfg : Config) (st : HookState)
    (rec : NativeRecorder) (tracks : Stream)
    (hrec : st.mediaRecorder = some rec) (hs : st.mediaStream = some tracks) :
    (cfg.customMediaStream.isSome = true →
      (stopRecording cfg st).1.mediaStream = some tracks ∧
      (stopRecording cfg st).1.releasedTracks = st.releasedTracks) ∧
    (cfg.customMediaStream = none →
      (stopRecording cfg st).1.mediaStream = none ∧
      (stopRecording cfg st).1.status = .idle ∧
      (stopRecording cfg st).1.releasedTracks = stopAllTracks tracks ∧
      ∀ t ∈ stopAllTracks tracks, t.stopped = true) := by
  constructor
  · intro hcsm
    simp [stopRecording, hrec, hcsm, hs]
  · intro hcsm
    refine ⟨?_, ?_, ?_, ?_⟩
    · simp [stopRecording, releaseMediaStream, hrec, hcsm, hs]
    · simp [stopRecording, releaseMediaStream, hrec, hcsm, hs]
    · simp [stopRecording, releaseMediaStream, hrec, hcsm, hs]
    · intro t ht
      simp only [stopAllTracks, List.mem_map] at ht
      obtain ⟨u, _, rfl⟩ := ht
      rfl

/-- C7 witness: releasing an acquired one-track stream stops its track and
returns to idle, while a custom-stream configuration leaves the held stream
alone. -/
theorem stopRecording_stream_ownership_spec_witness :
    ((stopRecording {} stRecording).1.mediaStream = none ∧
     (stopRecording {} stRecording).1.status = .idle ∧
     (stopRecording {} stRecording).1.releasedTracks =
       stopAllTracks [{ isAudio := true }]) ∧
    ((stopRecording cfgCustom stRecording).1.mediaStream =
       some [{ isAudio := true }] ∧
     (stopRecording cfgCustom stRecording).1.releasedTracks =
       stRecording.releasedTracks) := by
  refine ⟨?_, (stopRecording_stream_ownership_spec cfgCustom stRecording recLive
      [{ isAudio := true }] rfl rfl).1 rfl⟩
  have h := (stopRecording_stream_ownership_spec {} stRecording recLive
      [{ isAudio := true }] rfl rfl).2 rfl
  exact ⟨h.1, h.2.1, h.2.2.1⟩

/-- The hook's `if (error) setError(null)` step always leaves the error
slot clear. -/
theorem clearError_eq (st : HookState) :
    clearError st = { st with error := none } := by
  obtain ⟨mc, ms, mr, bse, err, stt, amr, mb, iam, rt, dr⟩ := st
  unfold clearError
  cases err <;> rfl

/-- Clearing the error slot does not touch the error slot of an
already-cleared state. -/
theorem clearError_update (st : HookState) :
    clearError { st with error := none } = clearError st := by
  rw [clearError_eq, clearError_eq]

/-- The error slot is clear after `clearError`. -/
@[simp] theorem clearError_error (st : HookState) :
    (clearError st).error = none := by
  rw [clearError_eq]

/-- `clearError` does not touch the stream handle. -/
@[simp] theorem clearError_mediaStream (st : HookState) :
    (clearError st).mediaStream = st.mediaStream := by
  rw [clearError_eq]

/-- `clearError` does not touch the chunk list. -/
@[simp] theorem clearError_mediaChunks (st : HookState) :
    (clearError st).mediaChunks = st.mediaChunks := by
  rw [clearError_eq]

/-- `clearError` does not touch the recorder ref. -/
@[simp] theorem clearError_mediaRecorder (st : HookState) :
    (clearError st).mediaRecorder = st.mediaRecorder := by
  rw [clearError_eq]

/-- C9: every `startRecording` call resets the collected chunks to empty,
and its outcome is the same as if the prior error slot had already been
clear (the first thing it does is clear it). -/
theorem startRecording_reset_spec (cfg : Config) (env : StartEnv)
    (st : HookState) (ts : Option Nat) :
    (startRecording cfg env st ts).1.mediaChunks = [] ∧
    startRecording cfg env st ts =
      startRecording cfg env { st with error := none } ts := by
  constructor
  · cases hms : st.mediaStream with
    | some s =>
      cases hct : env.ctorThrows with
      | some e => simp [startRecording, hms, hct]
      | none =>
        cases hst : env.startThrows with
        | some e => simp [startRecording, handleTryCatchStart, hms, hct, hst]
        | none => simp [startRecording, hms, hct, hst]
    | none =>
      rcases hacq : acquireMediaStream cfg env.acquire (clearError st)
        with ⟨a, ev, os⟩
      cases os with
      | none => simp [startRecording, hms, hacq]
      | some s =>
        cases hct : env.ctorThrows with
        | some e => simp [startRecording, hms, hacq, hct]
        | none =>
          cases hst : env.startThrows with
          | some e => simp [startRecording, handleTryCatchStart, hms, hacq, hct, hst]
          | none => simp [startRecording, hms, hacq, hct, hst]
  · unfold startRecording
    rw [clearError_update]

/-- Configuration asking for the camera, with an `onError` callback. -/
def cfgErr : Config :=
  { mediaStreamConstraints := { video := .bool true }, hasOnError := true }

/-- Oracle in which `getUserMedia` rejects. -/
def envAcqFail : StartEnv := { acquire := { getUserMedia := .error { id := 7 } } }

/-- C4 counterexample: with `onError` supplied, a failing device
acquisition stores the error and sets status `failed`, but the performed
actions are exactly the two status updates — no error callback fires, so
the error is not "reported to the caller via a callback". -/
theorem acquisition_error_unreported_cex :
    cfgErr.hasOnError = true ∧
    (startRecording cfgErr envAcqFail initialState none).1.error =
      some { id := 7 } ∧
    (startRecording cfgErr envAcqFail initialState none).1.status = .failed ∧
    (startRecording cfgErr envAcqFail initialState none).2.1 =
      [.setStatus .acquiring_media, .setStatus .failed] := by
  refine ⟨rfl, ?_, ?_, ?_⟩ <;> rfl

/-- C4 (amended): a device-acquisition error is captured into the error
slot and moves the status to `failed`, with no callback fired; an error
thrown by the recorder's `start` call is captured into the error slot,
reported via `onError` when that callback is supplied, and moves the status
back to `idle`; an error thrown by recorder construction is not captured —
it propagates out of `startRecording`, leaving the error slot clear and the
recorder ref unchanged. -/
theorem error_capture_amended_spec (cfg : Config) (env : StartEnv)
    (st : HookState) (ts : Option Nat) :
    (∀ e, cfg.customMediaStream = none → st.mediaStream = none →
      awaitStream cfg env.acquire = .error e →
      (startRecording cfg env st ts).1.error = some e ∧
      (startRecording cfg env st ts).1.status = .failed ∧
      ∀ ev ∈ (startRecording cfg env st ts).2.1, ∀ x, ev ≠ .cbError x) ∧
    (∀ e s, st.mediaStream = some s → env.ctorThrows = none →
      env.startThrows = some e →
      (startRecording cfg env st ts).1.error = some e ∧
      (startRecording cfg env st ts).1.status = .idle ∧
      (cfg.hasOnError = true →
        .cbError e ∈ (startRecording cfg env st ts).2.1)) ∧
    (∀ e s, st.mediaStream = some s → env.ctorThrows = some e →
      (startRecording cfg env st ts).2.2 = some e ∧
      (startRecording cfg env st ts).1.error = none ∧
      (startRecording cfg env st ts).1.mediaRecorder = st.mediaRecorder) := by
  refine ⟨fun e hcsm hms haw => ?_, fun e s hms hctor hstart => ?_,
    fun e s hms hctor => ?_⟩
  · simp [startRecording, acquireMediaStream, hcsm, hms, haw]
  · simp [startRecording, handleTryCatchStart, hms, hctor, hstart]
  · simp [startRecording, hms, hctor]

/-- A state already holding an acquired one-track stream. -/
def stReady : HookState :=
  { mediaStream := some [{ isAudio := false }], status := .ready }

/-- Oracle in which `rec.start` throws. -/
def envStartFail : StartEnv := { startThrows := some { id := 3 } }

/-- Oracle in which `new MediaRecorder(...)` throws. -/
def envCtorFail : StartEnv := { ctorThrows := some { id := 4 } }

/-- C4 witness: the three amended error paths at concrete inputs. -/
theorem error_capture_amended_spec_witness :
    (startRecording cfgErr envAcqFail initialState none).1.error =
      some { id := 7 } ∧
    (startRecording cfgErr envAcqFail initialState none).1.status = .failed ∧
    (startRecording cfgErr envStartFail stReady none).1.error =
      some { id := 3 } ∧
    (startRecording cfgErr envStartFail stReady none).1.status = .idle ∧
    .cbError { id := 3 } ∈ (startRecording cfgErr envStartFail stReady none).2.1 ∧
    (startRecording cfgErr envCtorFail stReady none).2.2 = some { id := 4 } ∧
    (startRecording cfgErr envCtorFail stReady none).1.error = none ∧
    (startRecording cfgErr envCtorFail stReady none).1.mediaRecorder =
      stReady.mediaRecorder := by
  have ha := (error_capture_amended_spec cfgErr envAcqFail initialState none).1
    { id := 7 } rfl rfl rfl
  have hb := (error_capture_amended_spec cfgErr envStartFail stReady none).2.1
    { id := 3 } [{ isAudio := false }] rfl rfl rfl
  have hc := (error_capture_amended_spec cfgErr envCtorFail stReady none).2.2
    { id := 4 } [{ isAudio := false }] rfl rfl
  exact ⟨ha.1, ha.2.1, hb.1, hb.2.1, hb.2.2 rfl, hc.1, hc.2.1, hc.2.2⟩

/-- A requested key missing from the supported set makes
`ensureConstraintsSupported` produce an error message. -/
theorem ensureConstraintsSupported_isSome (supported keys : List String)
    (k : String) (hk : k ∈ keys) (hns : supported.contains k = false) :
    (ensureConstraintsSupported supported keys).isSome := by
  unfold ensureConstraintsSupported
  have hmem : k ∈ keys.filter (fun x => !(supported.contains x)) :=
    List.mem_filter.2 ⟨hk, by simpa using hns⟩
  have hne : (keys.filter (fun x => !(supported.contains x))).length ≠ 0 := by
    intro h0
    rw [List.length_eq_zero] at h0
    rw [h0] at hmem
    exact absurd hmem (List.not_mem_nil k)
  rw [if_pos hne]
  rfl

/-- C5: a requested video or audio constraint object containing a key
outside the browser's supported-constraints set, or an unsupported
(truthy) recorder MIME type, makes the capability check record a
browser-support error; the check reads only the support environment — the
acquisition oracle is not even in its scope — and the effect leaves the
stream handle and the status untouched, so no acquisition is attempted by
the rejection. -/
theorem supportCheck_rejects_spec (cfg : Config) (env : SupportEnv)
    (h : (∃ keys k, cfg.mediaStreamConstraints.video = .obj keys ∧ k ∈ keys ∧
            env.supportedConstraints.contains k = false) ∨
         (∃ keys k, cfg.mediaStreamConstraints.audio = .obj keys ∧ k ∈ keys ∧
            env.supportedConstraints.contains k = false) ∨
         (∃ opts m, cfg.mediaRecorderOptions = some opts ∧
            opts.mimeType = some m ∧ m ≠ "" ∧ env.isTypeSupported m = false)) :
    (supportCheck cfg env).isSome ∧
    ∀ st, (applySupportEffect cfg env st).mediaStream = st.mediaStream ∧
          (applySupportEffect cfg env st).status = st.status := by
  constructor
  · unfold supportCheck
    split
    · rfl
    split
    · rfl
    split
    · rfl
    split
    · rfl
    rcases h with ⟨keys, k, hobj, hk, hns⟩ | ⟨keys, k, hobj, hk, hns⟩ |
      ⟨opts, m, hopts, hm, hme, hts⟩
    · obtain ⟨e, he⟩ := Option.isSome_iff_exists.mp
        (ensureConstraintsSupported_isSome env.supportedConstraints keys k hk hns)
      simp [constraintErr, hobj, he]
    · obtain ⟨e, he⟩ := Option.isSome_iff_exists.mp
        (ensureConstraintsSupported_isSome env.supportedConstraints keys k hk hns)
      cases hv : constraintErr env cfg.mediaStreamConstraints.video with
      | some e2 => simp [hv]
      | none => simp [hv, constraintErr, hobj, he]
    · cases hv : constraintErr env cfg.mediaStreamConstraints.video with
      | some e2 => simp [hv]
      | none =>
        cases ha : constraintErr env cfg.mediaStreamConstraints.audio with
        | some e2 => simp [hv, ha]
        | none => simp [hv, ha, mimeErr, hopts, hm, hme, hts]
  · intro st
    unfold applySupportEffect
    cases supportCheck cfg env <;> exact ⟨rfl, rfl⟩

/-- Configuration asking for a camera with a constraint object whose key no
browser in the environment supports. -/
def cfgBadVideo : Config :=
  { mediaStreamConstraints := { video := .obj ["frameRate"] } }

/-- C5 witness: an unsupported video-constraint key on an otherwise capable
browser records an error, and the checking effect leaves stream and status
of the freshly mounted hook untouched. -/
theorem supportCheck_rejects_spec_witness :
    (supportCheck cfgBadVideo {}).isSome ∧
    (applySupportEffect cfgBadVideo {} initialState).mediaStream =
      initialState.mediaStream ∧
    (applySupportEffect cfgBadVideo {} initialState).status =
      initialState.status := by
  have h := supportCheck_rejects_spec cfgBadVideo {}
    (Or.inl ⟨["frameRate"], "frameRate", rfl, by simp, by simp⟩)
  exact ⟨h.1, (h.2 initialState).1, (h.2 initialState).2⟩

end UMR
